import Mathlib

/-!
Verification of the request-authorization gate of the repository
(`src/middleware.ts`).  The middleware classifies the request path,
checks for a `session` cookie, and returns one of three decisions:
pass-through (`NextResponse.next()`), a 401 JSON response, or a
redirect to `/admin/login`.  The `config.matcher` export restricts
which requests the host framework ever hands to the middleware.
-/

/-- An incoming request as the gate observes it: URL path and the cookie
set (`request.nextUrl.pathname` and `request.cookies`). -/
structure Request where
  path : String
  cookies : List (String × String)

/-- The gate's outcome: `next` is pass-through (`NextResponse.next()`),
`response status body contentType` is a direct HTTP response built via
`new NextResponse(body, \x7b status, headers \x7d)` (the only header set is
`Content-Type`, carried as the third field), and `redirect location` is
`NextResponse.redirect` to the given path, which carries no body. -/
inductive Decision where
  | next : Decision
  | response : Nat → String → String → Decision
  | redirect : String → Decision
deriving DecidableEq

/-- Character-level test that `s` begins with `p` (arguments: subject
list, pattern list).  This is the semantics of JavaScript
`String.prototype.startsWith` on the ASCII route paths involved: the
pattern's characters must appear, in order, at the head of the subject. -/
def charsStart : List Char → List Char → Bool
  | _, [] => true
  | [], _ :: _ => false
  | c :: s, d :: p => c == d && charsStart s p

/-- `strStarts s p` embeds the source's `s.startsWith(p)`. -/
def strStarts (s p : String) : Bool :=
  charsStart s.data p.data

/-- JavaScript truthiness of `request.cookies.get('session')?.value`:
`!!undefined` and `!!''` are `false`; any non-empty string is `true`
(src/middleware.ts line 19, `const isAuthenticated = !!sessionCookie`). -/
def truthy : Option String → Bool
  | none => false
  | some v => v != ""

/-- The body produced by
`JSON.stringify(\x7b error: 'Unauthorized', code: 'not_authenticated' \x7d)`
(src/middleware.ts line 28). -/
def unauthorizedBody : String :=
  "\x7b\"error\":\"Unauthorized\",\"code\":\"not_authenticated\"\x7d"

/-- src/middleware.ts line 9:
`path.startsWith('/admin') && path !== '/admin/login'`. -/
def isAdminUIPath (path : String) : Bool :=
  strStarts path "/admin" && path != "/admin/login"

/-- src/middleware.ts line 10:
`path.startsWith('/api/admin') && !path.startsWith('/api/admin/login')`. -/
def isAdminApiPath (path : String) : Bool :=
  strStarts path "/api/admin" && !strStarts path "/api/admin/login"

/-- The middleware function (src/middleware.ts lines 5–44), translated
branch for branch.  The `console.log` diagnostic has no effect on the
returned decision and is omitted.  `request.cookies.get('session')`
returns the (first) cookie named `session`, embedded as `List.lookup`. -/
def middleware (request : Request) : Decision :=
  let path := request.path
  if !isAdminUIPath path && !isAdminApiPath path then
    Decision.next
  else
    let sessionCookie := List.lookup "session" request.cookies
    let isAuthenticated := truthy sessionCookie
    if !isAuthenticated then
      if isAdminApiPath path then
        Decision.response 401 unauthorizedBody "application/json"
      else if isAdminUIPath path then
        Decision.redirect "/admin/login"
      else
        Decision.next
    else
      Decision.next

/-- The route matcher exported as
`config.matcher = ['/admin/:path*', '/api/admin/:path*']`
(src/middleware.ts lines 46–48), with the framework's documented matcher
semantics: a pattern `/admin/:path*` (zero or more trailing segments)
matches exactly the path `/admin` itself and every path beginning with
`/admin/`. -/
def matcherMatches (path : String) : Bool :=
  (path == "/admin" || strStarts path "/admin/") ||
  (path == "/api/admin" || strStarts path "/api/admin/")

/-- The deployed gate: the host framework runs `middleware` only on
requests whose path matches `config.matcher`; every other request passes
through untouched. -/
def gate (r : Request) : Decision :=
  if matcherMatches r.path then middleware r else Decision.next

/-! ### Bridge lemmas between `charsStart` and `List.take` -/

theorem take_of_charsStart :
    ∀ (p s : List Char), charsStart s p = true → s.take p.length = p
  | [], _, _ => by simp
  | _ :: _, [], h => by simp [charsStart] at h
  | d :: p, c :: s, h => by
    simp only [charsStart, Bool.and_eq_true, beq_iff_eq] at h
    simp [List.take, h.1, take_of_charsStart p s h.2]

theorem charsStart_of_take :
    ∀ (p s : List Char), s.take p.length = p → charsStart s p = true
  | [], s, _ => by simp [charsStart]
  | _ :: _, [], h => by simp at h
  | d :: p, c :: s, h => by
    simp only [List.length_cons, List.take_succ_cons, List.cons.injEq] at h
    simp [charsStart, h.1, charsStart_of_take p s h.2]

theorem charsStart_append (p t : List Char) : charsStart (p ++ t) p = true := by
  apply charsStart_of_take
  exact List.take_left p t

theorem charsStart_refl (l : List Char) : charsStart l l = true := by
  apply charsStart_of_take
  exact List.take_length l

/-- Two patterns heading the same subject are nested: the longer one
begins with the shorter one. -/
theorem charsStart_both {s p q : List Char} (hp : charsStart s p = true)
    (hq : charsStart s q = true) (hle : p.length ≤ q.length) :
    q.take p.length = p := by
  have t1 := take_of_charsStart p s hp
  have t2 := take_of_charsStart q s hq
  rw [← t2, List.take_take, Nat.min_eq_left hle, t1]

/-- If `s` begins with `p`, it cannot also begin with a longer `q` that
disagrees with `p` on the first `p.length` characters. -/
theorem charsStart_excl_long {s p q : List Char} (hle : p.length ≤ q.length)
    (hne : q.take p.length ≠ p) (hp : charsStart s p = true) :
    charsStart s q = false := by
  cases hq : charsStart s q
  · rfl
  · exact absurd (charsStart_both hp hq hle) hne

/-- If `s` begins with `q`, it cannot also begin with a shorter `p` that
disagrees with `q` on the first `p.length` characters. -/
theorem charsStart_excl_short {s p q : List Char} (hle : p.length ≤ q.length)
    (hne : q.take p.length ≠ p) (hq : charsStart s q = true) :
    charsStart s p = false := by
  cases hp : charsStart s p
  · rfl
  · exact absurd (charsStart_both hp hq hle) hne

/-! ### Derived facts about the path predicates -/

/-- Appending a non-empty string strictly extends a string. -/
theorem append_ne_self (t s : String) (hs : s ≠ "") : t ++ s ≠ t := by
  intro h
  apply hs
  apply String.ext
  have hd := congrArg String.data h
  rw [String.data_append] at hd
  have hl := congrArg List.length hd
  rw [List.length_append] at hl
  have hz : s.data.length = 0 := by omega
  simpa using List.eq_nil_of_length_eq_zero hz

/-- A path under the admin UI space is never in the admin API space:
`/admin` and `/api/admin` disagree at their third character. -/
theorem ui_api_disjoint (path : String) (h : isAdminUIPath path = true) :
    isAdminApiPath path = false := by
  simp only [isAdminUIPath, Bool.and_eq_true] at h
  have hx : charsStart path.data "/api/admin".data = false :=
    charsStart_excl_long (p := "/admin".data) (by decide) (by decide) h.1
  simp [isAdminApiPath, strStarts, hx]

/-- Any path beginning with `/api/admin/login` is handled by neither
branch: the API predicate excludes it explicitly, and the UI predicate
fails because `/api` and `/adm` differ. -/
theorem apiLogin_pass (path : String) (cookies : List (String × String))
    (h : strStarts path "/api/admin/login" = true) :
    middleware ⟨path, cookies⟩ = Decision.next := by
  have hui : charsStart path.data "/admin".data = false :=
    charsStart_excl_short (p := "/admin".data) (by decide) (by decide) h
  have h1 : isAdminUIPath path = false := by
    simp [isAdminUIPath, strStarts, hui]
  have h2 : isAdminApiPath path = false := by
    simp [isAdminApiPath, h]
  simp [middleware, h1, h2]

/-- The decision depends on the cookie set only through the truthiness
of the `session` cookie's value. -/
theorem middleware_cookie_inv (p : String) (cs cs' : List (String × String))
    (h : truthy (List.lookup "session" cs) = truthy (List.lookup "session" cs')) :
    middleware ⟨p, cs⟩ = middleware ⟨p, cs'⟩ := by
  simp only [middleware, h]

/-! ### The claims -/

/-- C2: a protected-api path (starts with `/api/admin`, not with
`/api/admin/login`) with an absent or empty `session` cookie gets an
HTTP 401 with the fixed JSON error body and `application/json`
content-type. -/
theorem protected_api_unauthenticated_401 (r : Request)
    (hapi : isAdminApiPath r.path = true)
    (hno : truthy (List.lookup "session" r.cookies) = false) :
    middleware r = Decision.response 401 unauthorizedBody "application/json" := by
  simp [middleware, hapi, hno]

theorem protected_api_unauthenticated_401_witness :
    middleware ⟨"/api/admin/blogs", []⟩ =
      Decision.response 401 unauthorizedBody "application/json" :=
  protected_api_unauthenticated_401 ⟨"/api/admin/blogs", []⟩ (by decide) (by decide)

/-- C3: a protected-ui path (starts with `/admin`, not exactly
`/admin/login`) with an absent or empty `session` cookie is redirected
to `/admin/login`; the redirect decision carries no body. -/
theorem protected_ui_unauthenticated_redirect (r : Request)
    (hui : isAdminUIPath r.path = true)
    (hno : truthy (List.lookup "session" r.cookies) = false) :
    middleware r = Decision.redirect "/admin/login" := by
  have hapi := ui_api_disjoint r.path hui
  simp [middleware, hui, hapi, hno]

theorem protected_ui_unauthenticated_redirect_witness :
    middleware ⟨"/admin/dashboard", []⟩ = Decision.redirect "/admin/login" :=
  protected_ui_unauthenticated_redirect ⟨"/admin/dashboard", []⟩ (by decide) (by decide)

/-- C5: the exact path `/admin/login` passes through for every cookie
set, so no redirect loop can occur at the login page. -/
theorem admin_login_pass (cookies : List (String × String)) :
    middleware ⟨"/admin/login", cookies⟩ = Decision.next := rfl

/-- C6: every path starting with `/api/admin/login` passes through for
every cookie set. -/
theorem api_login_pass (path : String) (cookies : List (String × String))
    (h : strStarts path "/api/admin/login" = true) :
    middleware ⟨path, cookies⟩ = Decision.next :=
  apiLogin_pass path cookies h

theorem api_login_pass_witness :
    middleware ⟨"/api/admin/login", [("other", "x")]⟩ = Decision.next :=
  api_login_pass "/api/admin/login" [("other", "x")] (by decide)

/-- C7: a public path — one that is neither protected-ui nor
protected-api — passes through unchanged regardless of the cookie set. -/
theorem public_path_pass (r : Request)
    (hui : isAdminUIPath r.path = false)
    (hapi : isAdminApiPath r.path = false) :
    middleware r = Decision.next := by
  simp [middleware, hui, hapi]

theorem public_path_pass_witness :
    middleware ⟨"/blog/hello", [("session", "")]⟩ = Decision.next :=
  public_path_pass ⟨"/blog/hello", [("session", "")]⟩ (by decide) (by decide)

/-- C8: the gate is total — every request yields exactly one of the
three decisions: pass-through, the 401 JSON response, or the redirect
to `/admin/login`. -/
theorem middleware_total (r : Request) :
    middleware r = Decision.next ∨
    middleware r = Decision.response 401 unauthorizedBody "application/json" ∨
    middleware r = Decision.redirect "/admin/login" := by
  simp only [middleware]
  split
  · exact Or.inl rfl
  · split
    · split
      · exact Or.inr (Or.inl rfl)
      · split
        · exact Or.inr (Or.inr rfl)
        · exact Or.inl rfl
    · exact Or.inl rfl

/-- C4: authentication is a presence-only check.  On any protected path
a request whose `session` cookie has any non-empty value (forged or not)
passes through, while a missing cookie and a present-but-empty cookie
produce the same decision. -/
theorem presence_only_auth (path v : String) (cs cs' cs'' : List (String × String))
    (hprot : isAdminUIPath path = true ∨ isAdminApiPath path = true)
    (hv : v ≠ "") (h1 : List.lookup "session" cs = some v)
    (h2 : List.lookup "session" cs' = none)
    (h3 : List.lookup "session" cs'' = some "") :
    middleware ⟨path, cs⟩ = Decision.next ∧
    middleware ⟨path, cs'⟩ = middleware ⟨path, cs''⟩ := by
  constructor
  · have hauth : truthy (List.lookup "session" cs) = true := by
      simp [truthy, h1, hv]
    rcases hprot with h | h <;> simp [middleware, h, hauth]
  · apply middleware_cookie_inv
    simp [truthy, h2, h3]

theorem presence_only_auth_witness :
    middleware ⟨"/admin/dashboard", [("session", "forged")]⟩ = Decision.next ∧
    middleware ⟨"/admin/dashboard", []⟩ =
      middleware ⟨"/admin/dashboard", [("session", "")]⟩ :=
  presence_only_auth "/admin/dashboard" "forged" _ _ _
    (Or.inl (by decide)) (by decide) (by decide) (by decide) (by decide)

/-- C9: the decision is a function of the path and the presence of a
non-empty `session` cookie only — other cookies and the particular
non-empty token value are irrelevant. -/
theorem decision_depends_on_presence (p : String) (cs cs' : List (String × String))
    (h : (∃ v w, v ≠ "" ∧ w ≠ "" ∧ List.lookup "session" cs = some v ∧
           List.lookup "session" cs' = some w) ∨
         (truthy (List.lookup "session" cs) = false ∧
          truthy (List.lookup "session" cs') = false)) :
    middleware ⟨p, cs⟩ = middleware ⟨p, cs'⟩ := by
  apply middleware_cookie_inv
  rcases h with ⟨v, w, hv, hw, h1, h2⟩ | ⟨h1, h2⟩
  · have hv' : (v != "") = true := by simp [hv]
    have hw' : (w != "") = true := by simp [hw]
    simp [truthy, h1, h2, hv', hw']
  · rw [h1, h2]

theorem decision_depends_on_presence_witness :
    middleware ⟨"/admin/x", [("session", "a"), ("theme", "dark")]⟩ =
      middleware ⟨"/admin/x", [("session", "b")]⟩ :=
  decision_depends_on_presence "/admin/x" _ _
    (Or.inl ⟨"a", "b", by decide, by decide, by decide, by decide⟩)

/-- C10: the UI login exemption is exact-match only — every strict
extension of `/admin/login` is classified protected-ui and redirected
when unauthenticated — while on the API side every path starting with
`/api/admin/login` passes through. -/
theorem ui_login_subpaths_protected (s : String) (cs cs' : List (String × String))
    (hs : s ≠ "") (hno : truthy (List.lookup "session" cs) = false) :
    isAdminUIPath ("/admin/login" ++ s) = true ∧
    middleware ⟨"/admin/login" ++ s, cs⟩ = Decision.redirect "/admin/login" ∧
    middleware ⟨"/api/admin/login" ++ s, cs'⟩ = Decision.next := by
  have hstart : charsStart ("/admin/login" ++ s).data "/admin".data = true := by
    apply charsStart_of_take
    rw [String.data_append, List.take_append_of_le_length (by decide)]
    decide
  have hne : ("/admin/login" ++ s) ≠ "/admin/login" := append_ne_self _ s hs
  have hui : isAdminUIPath ("/admin/login" ++ s) = true := by
    simp only [isAdminUIPath, strStarts, Bool.and_eq_true]
    exact ⟨hstart, by simp [hne]⟩
  have hlogin : charsStart ("/admin/login" ++ s).data "/admin/login".data = true := by
    rw [String.data_append]; exact charsStart_append _ _
  have hx : charsStart ("/admin/login" ++ s).data "/api/admin".data = false :=
    charsStart_excl_short (p := "/api/admin".data) (q := "/admin/login".data)
      (by decide) (by decide) hlogin
  have hapi : isAdminApiPath ("/admin/login" ++ s) = false := by
    simp only [isAdminApiPath, strStarts, hx, Bool.false_and]
  refine ⟨hui, ?_, ?_⟩
  · simp [middleware, hui, hapi, hno]
  · apply apiLogin_pass
    show charsStart ("/api/admin/login" ++ s).data "/api/admin/login".data = true
    rw [String.data_append]; exact charsStart_append _ _

theorem ui_login_subpaths_protected_witness :
    isAdminUIPath ("/admin/login" ++ "/reset") = true ∧
    middleware ⟨"/admin/login" ++ "/reset", []⟩ = Decision.redirect "/admin/login" ∧
    middleware ⟨"/api/admin/login" ++ "/reset", []⟩ = Decision.next :=
  ui_login_subpaths_protected "/reset" [] [] (by decide) (by decide)

/-- C1 (counterexample): the middleware's bare `startsWith('/admin')`
check does classify the sibling path `/adminSomethingElse` as
protected-ui, and with no cookie it returns a redirect, not
pass-through. -/
theorem sibling_path_counterexample :
    isAdminUIPath "/adminSomethingElse" = true ∧
    middleware ⟨"/adminSomethingElse", []⟩ = Decision.redirect "/admin/login" ∧
    middleware ⟨"/adminSomethingElse", []⟩ ≠ Decision.next := by
  decide

/-- C1 (amended): a sibling path `/admin<s>` (with `s` non-empty and not
starting with a separator) is classified protected-ui by the middleware,
which would redirect it when unauthenticated; the deployed gate still
passes such a path through for every cookie state because the route
matcher never sends it to the middleware. -/
theorem sibling_path_gate_pass (s : String) (cs : List (String × String))
    (hs : s ≠ "") (hsep : strStarts s "/" = false) :
    isAdminUIPath ("/admin" ++ s) = true ∧
    gate ⟨"/admin" ++ s, cs⟩ = Decision.next ∧
    middleware ⟨"/admin" ++ s, cs⟩ =
      (if truthy (List.lookup "session" cs) then Decision.next
       else Decision.redirect "/admin/login") := by
  have hstart : charsStart ("/admin" ++ s).data "/admin".data = true := by
    rw [String.data_append]; exact charsStart_append _ _
  have hnelogin : ("/admin" ++ s) ≠ "/admin/login" := by
    intro h
    have h2 : ("/admin" : String) ++ s = "/admin" ++ "/login" := by
      rw [h]; decide
    have h3 : s.data = "/login".data := by
      have hd := congrArg String.data h2
      rw [String.data_append, String.data_append] at hd
      exact List.append_cancel_left hd
    have h4 : s = "/login" := String.ext h3
    rw [h4] at hsep
    exact absurd hsep (by decide)
  have hui : isAdminUIPath ("/admin" ++ s) = true := by
    simp only [isAdminUIPath, strStarts, Bool.and_eq_true]
    exact ⟨hstart, by simp [hnelogin]⟩
  have hapi10 : charsStart ("/admin" ++ s).data "/api/admin".data = false :=
    charsStart_excl_long (p := "/admin".data) (by decide) (by decide) hstart
  have hapi : isAdminApiPath ("/admin" ++ s) = false := by
    simp only [isAdminApiPath, strStarts, hapi10, Bool.false_and]
  have hm1 : ("/admin" ++ s) ≠ "/admin" := append_ne_self "/admin" s hs
  have hm2 : charsStart ("/admin" ++ s).data "/admin/".data = false := by
    cases hq : charsStart ("/admin" ++ s).data "/admin/".data
    · rfl
    · exfalso
      have ht := take_of_charsStart _ _ hq
      rw [String.data_append,
        show ("/admin/".data.length) = "/admin".data.length + 1 from by decide,
        List.take_append] at ht
      have h1 : s.data.take 1 = ['/'] :=
        List.append_cancel_left
          (ht.trans (show "/admin/".data = "/admin".data ++ ['/'] from by decide))
      have h2 : charsStart s.data ['/'] = true := by
        apply charsStart_of_take
        simpa using h1
      exact absurd (h2.symm.trans hsep) (by decide)
  have hm3 : ("/admin" ++ s) ≠ "/api/admin" := by
    intro h
    have h2 : charsStart ("/admin" ++ s).data "/api/admin".data = true := by
      rw [h]; exact charsStart_refl _
    rw [hapi10] at h2
    cases h2
  have hm4 : charsStart ("/admin" ++ s).data "/api/admin/".data = false :=
    charsStart_excl_long (p := "/admin".data) (by decide) (by decide) hstart
  have hmm : matcherMatches ("/admin" ++ s) = false := by
    simp only [matcherMatches, strStarts, hm2, hm4, Bool.or_false]
    simp [hm1, hm3]
  refine ⟨hui, ?_, ?_⟩
  · simp [gate, hmm]
  · cases htr : truthy (List.lookup "session" cs) <;>
      simp [middleware, hui, hapi, htr]

theorem sibling_path_gate_pass_witness :
    isAdminUIPath ("/admin" ++ "SomethingElse") = true ∧
    gate ⟨"/admin" ++ "SomethingElse", []⟩ = Decision.next ∧
    middleware ⟨"/admin" ++ "SomethingElse", []⟩ =
      (if truthy (List.lookup "session" ([] : List (String × String)))
       then Decision.next else Decision.redirect "/admin/login") :=
  sibling_path_gate_pass "SomethingElse" [] (by decide) (by decide)
